import Mathlib

/-!
Verification development for the Marvel movies dashboard (`src/app.py`).

The program loads a CSV table of movie records with pandas, derives a
`Year` column (from `ReleaseDateUS`) and an `ROI` column
(`(Worldwide - Budget) / Budget`), and on every UI event filters the
table by a distributor selection and an inclusive year range
(`filter_data`) and recomputes KPI scalars and chart tables
(`update_dashboard`).

Modelling choices for the shallow embedding:
- a pandas float cell is either a rational number, a missing value
  (pandas `NaN`, the null), or an infinity produced by division by zero;
  the type `PVal` covers all four cases, and loaded columns that cannot
  hold an infinity are modelled as `Option ℚ` with `none` for the null;
- a data frame is a `List Row`;
- pandas comparisons `Year >= a` / `Year <= b` are `false` on a null
  `Year` (NaN comparisons), embedded in `yearGeB` / `yearLeB`;
- `Series.sum` skips nulls and returns 0 on an empty or all-null column;
  `Series.mean` skips nulls, returns NaN on an empty set and lets
  infinities dominate (`pvalMean`);
- `sort_values(ascending=False)` places nulls last; it is embedded as
  `mergeSort` under a total boolean relation in which the null is the
  bottom element (`wGeB`, `roiGeB`);
- `groupby` on a string key sorts the (null-free) keys ascending;
  `groupby` on `Year` drops null keys;
- the Dash callback `update_dashboard` reads the module-level frame `df`
  and returns fresh outputs; its statefulness is embedded by explicit
  state passing: it receives a `DashState` and returns the new state.
-/

/-- A pandas float value as it appears in the derived `ROI` column:
a finite rational, NaN (also modelling the pandas null), or an infinity
produced by division by zero. -/
inductive PVal where
  | nan : PVal
  | neginf : PVal
  | posinf : PVal
  | num (q : ℚ) : PVal
deriving DecidableEq, BEq, Repr

/-- A parsed `ReleaseDateUS` value (result of `pd.to_datetime`). -/
structure DateRec where
  year : Int
  month : Nat
  day : Nat
deriving DecidableEq, Repr

/-- One row of the CSV table after the numeric coercion
(`pd.to_numeric(..., errors="coerce")`) and the date parse
(`pd.to_datetime(..., errors="coerce")`) of `src/app.py` lines 19-23:
each fallible parse yields `none` on failure. -/
structure RawRow where
  Title : String
  Distributor : String
  ReleaseDateUS : Option DateRec
  Budget : Option ℚ
  OpeningWeekendNorthAmerica : Option ℚ
  NorthAmerica : Option ℚ
  OtherTerritories : Option ℚ
  Worldwide : Option ℚ
deriving DecidableEq, Repr

/-- `df["ROI"] = (df["Worldwide"] - df["Budget"]) / df["Budget"]`
(`src/app.py` line 27) with IEEE semantics: a null operand propagates to
NaN; a zero budget yields +inf, -inf or NaN depending on the sign of the
numerator; otherwise the exact rational quotient. -/
def computeROI (w b : Option ℚ) : PVal :=
  match w, b with
  | some w, some b =>
      if b = 0 then
        if 0 < w - b then PVal.posinf
        else if w - b < 0 then PVal.neginf
        else PVal.nan
      else PVal.num ((w - b) / b)
  | _, _ => PVal.nan

/-- A fully loaded movie record: the raw row plus the two derived
columns `Year` (line 24) and `ROI` (line 27). -/
structure Row extends RawRow where
  Year : Option Int
  ROI : PVal
deriving DecidableEq, Repr

/-- The dataset loader applied to one row: derives
`Year = ReleaseDateUS.dt.year` (null when the date failed to parse) and
`ROI` (`src/app.py` lines 24 and 27). -/
def loadRow (r : RawRow) : Row :=
  { r with
    Year := r.ReleaseDateUS.map DateRec.year
    ROI := computeROI r.Worldwide r.Budget }

/-- The dataset loader applied to the whole table. -/
def loadTable (rs : List RawRow) : List Row :=
  rs.map loadRow

/-- The pandas mask `dff["Year"] >= a`: `false` on a null `Year`. -/
def yearGeB (oy : Option Int) (a : Int) : Bool :=
  match oy with
  | some y => decide (a ≤ y)
  | none => false

/-- The pandas mask `dff["Year"] <= b`: `false` on a null `Year`. -/
def yearLeB (oy : Option Int) (b : Int) : Bool :=
  match oy with
  | some y => decide (y ≤ b)
  | none => false

/-- `filter_data(distributors, year_range)` from `src/app.py` lines
107-113.  `if distributors:` is Python truthiness on a list (skip when
empty); `if year_range and len(year_range) == 2:` applies the year mask
exactly when the argument is a present two-element list, which the
match on `some [a, b]` captures. -/
def filter_data (df : List Row) (distributors : List String)
    (year_range : Option (List Int)) : List Row :=
  let dff := df
  let dff :=
    if distributors.isEmpty then dff
    else dff.filter (fun r => distributors.contains r.Distributor)
  match year_range with
  | some [a, b] => dff.filter (fun r => yearGeB r.Year a && yearLeB r.Year b)
  | _ => dff

/-- `dff["Worldwide"].sum()` (`src/app.py` line 138): null-skipping sum,
0 on an empty or all-null column. -/
def total_worldwide (dff : List Row) : ℚ :=
  (dff.filterMap (fun r => r.Worldwide)).sum

/-- `dff["Budget"].sum()` (`src/app.py` line 139). -/
def total_budget (dff : List Row) : ℚ :=
  (dff.filterMap (fun r => r.Budget)).sum

/-- The finite part of a `PVal`. -/
def pvalToNum (v : PVal) : Option ℚ :=
  match v with
  | PVal.num q => some q
  | _ => none

/-- `Series.mean()` over a float column holding NaNs and infinities:
NaNs are skipped; an empty remainder gives NaN; infinities of both signs
give NaN; one sign of infinity dominates; otherwise the exact rational
mean. -/
def pvalMean (xs : List PVal) : PVal :=
  let ys := xs.filter (fun v => !(v == PVal.nan))
  if ys.isEmpty then PVal.nan
  else if ys.contains PVal.posinf && ys.contains PVal.neginf then PVal.nan
  else if ys.contains PVal.posinf then PVal.posinf
  else if ys.contains PVal.neginf then PVal.neginf
  else PVal.num ((ys.filterMap pvalToNum).sum / (ys.length : ℚ))

/-- `dff["ROI"].mean()` (`src/app.py` line 140). -/
def avg_roi (dff : List Row) : PVal :=
  pvalMean (dff.map (fun r => r.ROI))

/-- `dff["OpeningWeekendNorthAmerica"].max()` (`src/app.py` line 141):
null-skipping maximum, null on an empty subset. -/
def max_opening (dff : List Row) : Option ℚ :=
  (dff.filterMap (fun r => r.OpeningWeekendNorthAmerica)).max?

/-- `dff["Title"].nunique()` (`src/app.py` line 142): number of distinct
titles. -/
def movie_count (dff : List Row) : Nat :=
  (dff.map (fun r => r.Title)).dedup.length

/-- `dff.groupby("Distributor", as_index=False)["Worldwide"].sum()`
(`src/app.py` line 198): one output row per distinct distributor, keys
sorted ascending as pandas `groupby` does, each carrying the
null-skipping sum of `Worldwide` over that distributor's rows. -/
def by_distributor (dff : List Row) : List (String × ℚ) :=
  (((dff.map (fun r => r.Distributor)).dedup.mergeSort
      (fun a b => decide (a ≤ b))).map
    (fun d => (d, total_worldwide (dff.filter (fun r => r.Distributor == d)))))

/-- Descending-sort comparison on the `ROI` column as
`sort_values("ROI", ascending=False)` orders it: NaN is placed last
(bottom of the descending order), +inf first, -inf below every finite
value. -/
def roiGeB (x y : PVal) : Bool :=
  match x, y with
  | _, PVal.nan => true
  | PVal.nan, _ => false
  | PVal.posinf, _ => true
  | _, PVal.posinf => false
  | _, PVal.neginf => true
  | PVal.neginf, _ => false
  | PVal.num a, PVal.num b => decide (b ≤ a)

/-- `dff.sort_values("ROI", ascending=False)` (`src/app.py` line 207):
the whole subset reordered descending by `ROI`, nulls last, no rows
added or dropped. -/
def by_roi (dff : List Row) : List Row :=
  dff.mergeSort (fun r1 r2 => roiGeB r1.ROI r2.ROI)

/-- `dff.groupby("Year", as_index=False)["Worldwide"].sum()`
(`src/app.py` line 217): pandas `groupby` drops null keys, so rows with
a null `Year` contribute to no group; keys ascending. -/
def by_year (dff : List Row) : List (Int × ℚ) :=
  (((dff.filterMap (fun r => r.Year)).dedup.mergeSort
      (fun a b => decide (a ≤ b))).map
    (fun y => (y, total_worldwide (dff.filter (fun r => r.Year == some y)))))

/-- Descending-sort comparison on the `Worldwide` column as
`sort_values("Worldwide", ascending=False)` orders it: the null is
placed last. -/
def wGeB (x y : Option ℚ) : Bool :=
  match x, y with
  | _, none => true
  | none, some _ => false
  | some a, some b => decide (b ≤ a)

/-- `dff.sort_values("Worldwide", ascending=False).head(10)`
(`src/app.py` line 227). -/
def top10_worldwide (dff : List Row) : List Row :=
  (dff.mergeSort (fun r1 r2 => wGeB r1.Worldwide r2.Worldwide)).take 10

/-- The module-level state the Dash callback closes over: the frame
`df` loaded once at startup. -/
structure DashState where
  df : List Row
deriving DecidableEq, Repr

/-- The data outputs of one `update_dashboard` call (`src/app.py`
lines 134-249): the five KPI scalars and the data behind the five
charts (the scatter plot uses the filtered subset itself). -/
structure AggResult where
  total_worldwide : ℚ
  total_budget : ℚ
  avg_roi : PVal
  max_opening : Option ℚ
  movie_count : Nat
  scatter_data : List Row
  by_distributor : List (String × ℚ)
  by_roi : List Row
  by_year : List (Int × ℚ)
  top10_worldwide : List Row
deriving DecidableEq, Repr

/-- `update_dashboard(distributors, year_range)` (`src/app.py` lines
134-249), with the module-level frame passed as explicit state: it
filters a fresh copy of `df`, aggregates, and leaves the state as it
found it. -/
def update_dashboard (s : DashState) (distributors : List String)
    (year_range : Option (List Int)) : AggResult × DashState :=
  let dff := filter_data s.df distributors year_range
  ({ total_worldwide := total_worldwide dff
     total_budget := total_budget dff
     avg_roi := avg_roi dff
     max_opening := max_opening dff
     movie_count := movie_count dff
     scatter_data := dff
     by_distributor := by_distributor dff
     by_roi := by_roi dff
     by_year := by_year dff
     top10_worldwide := top10_worldwide dff }, s)

/-! ### Concrete example rows used by witnesses -/

/-- Example raw row: distributor D1, year 2012, budget 100, worldwide
300. -/
def exRaw : RawRow :=
  { Title := "Movie A"
    Distributor := "D1"
    ReleaseDateUS := some ⟨2012, 5, 4⟩
    Budget := some 100
    OpeningWeekendNorthAmerica := some 10
    NorthAmerica := some 50
    OtherTerritories := some 250
    Worldwide := some 300 }

/-- Example loaded row derived from `exRaw`. -/
def exRow : Row := loadRow exRaw

/-- Example raw row whose release date failed to parse. -/
def exRawNoDate : RawRow :=
  { Title := "Movie B"
    Distributor := "D2"
    ReleaseDateUS := none
    Budget := some 200
    OpeningWeekendNorthAmerica := some 20
    NorthAmerica := some 80
    OtherTerritories := some 120
    Worldwide := some 200 }

/-- Example loaded row with a null `Year`. -/
def exRowNoDate : Row := loadRow exRawNoDate

/-! ### Helper lemmas -/

/-- The year mask of `filter_data` holds exactly on a non-null year
inside the inclusive range. -/
theorem year_mask_iff (oy : Option Int) (a b : Int) :
    (yearGeB oy a = true ∧ yearLeB oy b = true) ↔
      ∃ y, oy = some y ∧ a ≤ y ∧ y ≤ b := by
  cases oy <;> simp [yearGeB, yearLeB]

/-- A nonempty list is not `isEmpty`. -/
theorem isEmpty_eq_false_of_ne_nil {α : Type} {l : List α} (h : l ≠ []) :
    l.isEmpty = false := by
  cases l with
  | nil => exact absurd rfl h
  | cons x t => rfl

/-- C1: with a nonempty distributor selection and a two-bound year
range, `filter_data` keeps exactly the rows whose `Distributor` is in
the selection and whose `Year` is non-null and lies in the inclusive
range `[a, b]`; no other row appears in the output. -/
theorem filter_data_two_bound_exact (df : List Row) (ds : List String)
    (a b : Int) (hds : ds ≠ []) :
    filter_data df ds (some [a, b]) =
      df.filter (fun r =>
        ds.contains r.Distributor && (yearGeB r.Year a && yearLeB r.Year b))
    ∧ ∀ r : Row, r ∈ filter_data df ds (some [a, b]) ↔
        r ∈ df ∧ r.Distributor ∈ ds ∧ ∃ y, r.Year = some y ∧ a ≤ y ∧ y ≤ b := by
  have hne := isEmpty_eq_false_of_ne_nil hds
  have heq : filter_data df ds (some [a, b]) =
      df.filter (fun r =>
        ds.contains r.Distributor && (yearGeB r.Year a && yearLeB r.Year b)) := by
    simp only [filter_data, hne, Bool.false_eq_true, if_false, List.filter_filter]
    refine List.filter_congr ?_
    intro r _
    rw [Bool.and_comm]
  refine ⟨heq, ?_⟩
  intro r
  rw [heq]
  simp only [List.mem_filter, Bool.and_eq_true, List.elem_iff, ← year_mask_iff,
    and_assoc]

/-- Closed witness for `filter_data_two_bound_exact`. -/
theorem filter_data_two_bound_exact_witness :
    exRow ∈ filter_data [exRow, exRowNoDate] ["D1"] (some [2010, 2015]) ↔
      exRow ∈ [exRow, exRowNoDate] ∧ exRow.Distributor ∈ ["D1"] ∧
        ∃ y, exRow.Year = some y ∧ 2010 ≤ y ∧ y ≤ 2015 :=
  (filter_data_two_bound_exact [exRow, exRowNoDate] ["D1"] 2010 2015
    (by decide)).2 exRow

/-- C3: an empty distributor selection applies no distributor
predicate; the result of `filter_data` with `[]` is exactly the result
of selecting every distributor present in the table, whatever the year
range does. -/
theorem filter_data_empty_sel_all (df : List Row) (yr : Option (List Int)) :
    filter_data df [] yr =
      filter_data df (df.map (fun r => r.Distributor)) yr := by
  have h : (if (df.map (fun r => r.Distributor)).isEmpty then df
      else df.filter
        (fun r => (df.map (fun r => r.Distributor)).contains r.Distributor))
      = df := by
    cases df with
    | nil => simp
    | cons r0 t =>
        rw [if_neg (by simp)]
        rw [List.filter_eq_self]
        intro x hx
        exact List.elem_iff.mpr (List.mem_map_of_mem _ hx)
  simp only [filter_data, List.isEmpty_nil, if_true]
  rw [h]

/-- C8: when the `year_range` argument is absent (`none`, the Python
`None`/empty case) or malformed (not exactly two bounds), `filter_data`
applies no year predicate: the output coincides with the output for an
absent year range, i.e. distributor-only filtering. -/
theorem filter_data_malformed_year (df : List Row) (ds : List String)
    (yr : Option (List Int)) (h : ∀ l, yr = some l → l.length ≠ 2) :
    filter_data df ds yr = filter_data df ds none := by
  cases yr with
  | none => rfl
  | some l =>
      match l with
      | [] => rfl
      | [_] => rfl
      | [x, y] =>
          have hx := h [x, y] rfl
          simp at hx
      | _ :: _ :: _ :: _ => rfl

/-- Closed witness for `filter_data_malformed_year`: a three-bound year
range degrades to no year filtering. -/
theorem filter_data_malformed_year_witness :
    filter_data [exRow] ["D1"] (some [2010, 2012, 2015]) =
      filter_data [exRow] ["D1"] none :=
  filter_data_malformed_year [exRow] ["D1"] (some [2010, 2012, 2015])
    (by intro l hl; cases hl; decide)

/-- C9: the pipeline never mutates the source table: `update_dashboard`
returns the state it was given, so every row and every (derived) field
of the source frame `df` is identical before and after the call. -/
theorem update_dashboard_preserves_source (s : DashState)
    (ds : List String) (yr : Option (List Int)) :
    (update_dashboard s ds yr).2 = s ∧
      (update_dashboard s ds yr).2.df = s.df :=
  ⟨rfl, rfl⟩

/-- C10: under any two-bound year range, a row whose `Year` is null
(its release date failed to parse) is excluded from the filter output,
whatever the bounds (so also for the full min-to-max range of the
dataset); such rows survive only when the year filter is absent or
malformed. -/
theorem filter_data_null_year_excluded (df : List Row) (ds : List String)
    (a b : Int) (r : Row) (hy : r.Year = none) :
    r ∉ filter_data df ds (some [a, b]) := by
  intro hr
  simp only [filter_data] at hr
  have := (List.mem_filter.mp hr).2
  rw [hy] at this
  simp [yearGeB] at this

/-- Closed witness for `filter_data_null_year_excluded`: the
null-`Year` row is dropped even by a range covering every parsed year. -/
theorem filter_data_null_year_excluded_witness :
    exRowNoDate.Year = none ∧
      exRowNoDate ∉ filter_data [exRow, exRowNoDate] [] (some [1900, 2100]) :=
  ⟨rfl, filter_data_null_year_excluded [exRow, exRowNoDate] [] 1900 2100
    exRowNoDate rfl⟩

/-- C2: on a loaded row, `ROI = (Worldwide - Budget) / Budget` whenever
both operands are non-null and `Budget ≠ 0`; a zero budget yields the
IEEE infinity (or NaN for a zero numerator) that then flows unchanged
into aggregation; a null in either operand propagates to the null
(NaN) `ROI`. -/
theorem roi_formula (raw : RawRow) :
    (∀ w bgt : ℚ, raw.Worldwide = some w → raw.Budget = some bgt →
        bgt ≠ 0 → (loadRow raw).ROI = PVal.num ((w - bgt) / bgt))
    ∧ (∀ w : ℚ, raw.Worldwide = some w → raw.Budget = some 0 →
        (loadRow raw).ROI =
          if 0 < w then PVal.posinf
          else if w < 0 then PVal.neginf
          else PVal.nan)
    ∧ ((raw.Worldwide = none ∨ raw.Budget = none) →
        (loadRow raw).ROI = PVal.nan) := by
  refine ⟨?_, ?_, ?_⟩
  · intro w bgt hw hb hz
    simp [loadRow, computeROI, hw, hb, hz]
  · intro w hw hb
    simp [loadRow, computeROI, hw, hb]
  · intro h
    cases h with
    | inl hw => simp [loadRow, computeROI, hw]
    | inr hb =>
        cases hw : raw.Worldwide with
        | none => simp [loadRow, computeROI, hw]
        | some w => simp [loadRow, computeROI, hw, hb]

/-- Closed witness for `roi_formula`: budget 100, worldwide 300 gives
`ROI = (300 - 100) / 100`. -/
theorem roi_formula_witness :
    (loadRow exRaw).ROI = PVal.num ((300 - 100) / 100) :=
  (roi_formula exRaw).1 300 100 rfl rfl (by norm_num)

/-- C5: on a filter combination matching no rows, every aggregate is the
well-defined empty-set value: sums are 0, the mean `ROI` is NaN, the
movie count is 0, both grouped tables and the top-10 table are empty
(and, the functions being total, nothing is raised). -/
theorem empty_subset_aggregates (df : List Row) (ds : List String)
    (yr : Option (List Int)) (h : filter_data df ds yr = []) :
    total_worldwide (filter_data df ds yr) = 0
    ∧ total_budget (filter_data df ds yr) = 0
    ∧ avg_roi (filter_data df ds yr) = PVal.nan
    ∧ movie_count (filter_data df ds yr) = 0
    ∧ by_distributor (filter_data df ds yr) = []
    ∧ by_year (filter_data df ds yr) = []
    ∧ top10_worldwide (filter_data df ds yr) = [] := by
  rw [h]
  refine ⟨rfl, rfl, rfl, rfl, ?_, ?_, ?_⟩
  · simp [by_distributor, List.mergeSort_nil]
  · simp [by_year, List.mergeSort_nil]
  · simp [top10_worldwide, List.mergeSort_nil]

/-- Closed witness for `empty_subset_aggregates`: a year range beyond
the dataset bounds matches no rows and all aggregates degrade. -/
theorem empty_subset_aggregates_witness :
    filter_data [exRow] [] (some [2100, 2200]) = []
    ∧ total_worldwide (filter_data [exRow] [] (some [2100, 2200])) = 0
    ∧ avg_roi (filter_data [exRow] [] (some [2100, 2200])) = PVal.nan
    ∧ movie_count (filter_data [exRow] [] (some [2100, 2200])) = 0 := by
  have h : filter_data [exRow] [] (some [2100, 2200]) = [] := by decide
  have hh := empty_subset_aggregates [exRow] [] (some [2100, 2200]) h
  exact ⟨h, hh.1, hh.2.2.1, hh.2.2.2.1⟩

/-- The null-skipping `Worldwide` sum over a cons. -/
theorem total_worldwide_cons (r : Row) (t : List Row) :
    total_worldwide (r :: t) = r.Worldwide.getD 0 + total_worldwide t := by
  cases hw : r.Worldwide <;> simp [total_worldwide, List.filterMap_cons, hw]

/-- Splitting a list of rows by any boolean predicate splits the
null-skipping `Worldwide` sum. -/
theorem total_worldwide_filter_split (p : Row → Bool) (l : List Row) :
    total_worldwide (l.filter p) +
      total_worldwide (l.filter (fun r => !(p r))) = total_worldwide l := by
  induction l with
  | nil => simp [total_worldwide]
  | cons r t ih =>
      cases hp : p r <;>
        simp only [List.filter_cons, hp, Bool.not_false, Bool.not_true,
          if_true, if_false, total_worldwide_cons, Bool.false_eq_true,
          Bool.true_eq_false] <;>
        linarith [ih]

/-- Summing the per-key `Worldwide` group sums over any duplicate-free
key list covering every row yields the total `Worldwide` sum. -/
theorem sum_over_keys (keys : List String) (dff : List Row)
    (hnd : keys.Nodup)
    (hcov : ∀ r ∈ dff, r.Distributor ∈ keys) :
    (keys.map (fun d =>
        total_worldwide (dff.filter (fun r => r.Distributor == d)))).sum
      = total_worldwide dff := by
  induction keys generalizing dff with
  | nil =>
      have hdf : dff = [] := by
        cases dff with
        | nil => rfl
        | cons r t => exact absurd (hcov r (by simp)) (by simp)
      simp [hdf, total_worldwide]
  | cons k ks ih =>
      have hk : k ∉ ks := (List.nodup_cons.mp hnd).1
      have hks : ks.Nodup := (List.nodup_cons.mp hnd).2
      have hstep : ∀ d ∈ ks,
          dff.filter (fun r => r.Distributor == d)
            = (dff.filter (fun r => !(r.Distributor == k))).filter
                (fun r => r.Distributor == d) := by
        intro d hd
        rw [List.filter_filter]
        refine (List.filter_congr ?_).symm
        intro r _
        by_cases h : r.Distributor = d
        · have hdk : d ≠ k := fun he => hk (he ▸ hd)
          simp [h, hdk]
        · simp [h]
      have hcov2 : ∀ r ∈ dff.filter (fun r => !(r.Distributor == k)),
          r.Distributor ∈ ks := by
        intro r hr
        have h1 := List.mem_filter.mp hr
        have h3 : r.Distributor ≠ k := by
          intro he
          rw [he] at h1
          simp at h1
        cases List.mem_cons.mp (hcov r h1.1) with
        | inl h => exact absurd h h3
        | inr h => exact h
      have ihx := ih (dff.filter (fun r => !(r.Distributor == k))) hks hcov2
      rw [List.map_cons, List.sum_cons,
        List.map_congr_left (fun d hd => congrArg total_worldwide (hstep d hd)),
        ihx, total_worldwide_filter_split]

/-- C4: grouping the filtered subset by `Distributor` and summing
`Worldwide` partitions the subset's `Worldwide` total: the sum of the
`by_distributor` group sums equals the `total_worldwide` KPI of the same
subset. -/
theorem by_distributor_sum_eq_total (df : List Row) (ds : List String)
    (yr : Option (List Int)) :
    ((by_distributor (filter_data df ds yr)).map Prod.snd).sum
      = total_worldwide (filter_data df ds yr) := by
  set dff := filter_data df ds yr
  rw [by_distributor, List.map_map]
  have hperm := List.mergeSort_perm (dff.map (fun r => r.Distributor)).dedup
    (fun a b => decide (a ≤ b))
  refine sum_over_keys _ dff (hperm.nodup_iff.mpr (List.nodup_dedup _)) ?_
  intro r hr
  exact hperm.mem_iff.mpr (List.mem_dedup.mpr (List.mem_map_of_mem _ hr))

/-- The descending `Worldwide` comparison is transitive. -/
theorem wGeB_trans (x y z : Option ℚ) :
    wGeB x y = true → wGeB y z = true → wGeB x z = true := by
  cases x <;> cases y <;> cases z <;> simp [wGeB] <;>
    intro h1 h2 <;> linarith

/-- The descending `Worldwide` comparison is total. -/
theorem wGeB_total (x y : Option ℚ) : (wGeB x y || wGeB y x) = true := by
  cases x <;> cases y <;> simp [wGeB] <;> exact le_total _ _

/-- The descending `ROI` comparison is transitive. -/
theorem roiGeB_trans (x y z : PVal) :
    roiGeB x y = true → roiGeB y z = true → roiGeB x z = true := by
  cases x <;> cases y <;> cases z <;> simp [roiGeB] <;>
    intro h1 h2 <;> linarith

/-- The descending `ROI` comparison is total. -/
theorem roiGeB_total (x y : PVal) : (roiGeB x y || roiGeB y x) = true := by
  cases x <;> cases y <;> simp [roiGeB] <;> exact le_total _ _

/-- C7: `by_roi` is a permutation of the whole filtered subset (no row
added, dropped or truncated) arranged in descending `ROI` order (nulls
last, as the underlying sort places them). -/
theorem by_roi_perm_sorted (dff : List Row) :
    (by_roi dff).Perm dff
    ∧ (by_roi dff).Pairwise (fun r1 r2 => roiGeB r1.ROI r2.ROI = true) := by
  constructor
  · exact List.mergeSort_perm dff _
  · exact List.sorted_mergeSort
      (fun a b c h1 h2 => roiGeB_trans a.ROI b.ROI c.ROI h1 h2)
      (fun a b => roiGeB_total a.ROI b.ROI) dff

/-- C6: `top10_worldwide` has at most 10 rows, every row of it is a row
of the filtered subset, it is arranged in descending `Worldwide` order,
and the remaining rows (the rest of a permutation of the subset) all
have `Worldwide` no greater than every included row. -/
theorem top10_spec (dff : List Row) :
    (top10_worldwide dff).length ≤ 10
    ∧ (∀ r : Row, r ∈ top10_worldwide dff → r ∈ dff)
    ∧ (top10_worldwide dff).Pairwise
        (fun r1 r2 => wGeB r1.Worldwide r2.Worldwide = true)
    ∧ ∃ rest : List Row, (top10_worldwide dff ++ rest).Perm dff
        ∧ ∀ x ∈ top10_worldwide dff, ∀ y ∈ rest,
            wGeB x.Worldwide y.Worldwide = true := by
  have hperm := List.mergeSort_perm dff
    (fun r1 r2 => wGeB r1.Worldwide r2.Worldwide)
  have hsorted :
      (dff.mergeSort (fun r1 r2 => wGeB r1.Worldwide r2.Worldwide)).Pairwise
        (fun r1 r2 => wGeB r1.Worldwide r2.Worldwide = true) :=
    List.sorted_mergeSort
      (fun a b c h1 h2 => wGeB_trans a.Worldwide b.Worldwide c.Worldwide h1 h2)
      (fun a b => wGeB_total a.Worldwide b.Worldwide) dff
  refine ⟨?_, ?_, ?_, ?_⟩
  · simp only [top10_worldwide, List.length_take]
    exact min_le_left _ _
  · intro r hr
    simp only [top10_worldwide] at hr
    exact hperm.mem_iff.mp (List.mem_of_mem_take hr)
  · simp only [top10_worldwide]
    exact List.Pairwise.sublist (List.take_sublist 10 _) hsorted
  · refine ⟨(dff.mergeSort
        (fun r1 r2 => wGeB r1.Worldwide r2.Worldwide)).drop 10, ?_, ?_⟩
    · simp only [top10_worldwide]
      rw [List.take_append_drop]
      exact hperm
    · have hp2 := hsorted
      rw [← List.take_append_drop 10
        (dff.mergeSort (fun r1 r2 => wGeB r1.Worldwide r2.Worldwide))] at hp2
      intro x hx y hy
      simp only [top10_worldwide] at hx
      exact (List.pairwise_append.mp hp2).2.2 x hx y hy

/-- Closed witness for `top10_spec`: on a singleton subset the single
row is kept and belongs to the subset. -/
theorem top10_spec_witness : exRow ∈ ([exRow] : List Row) :=
  (top10_spec [exRow]).2.1 exRow
    (by simp [top10_worldwide, List.mergeSort_singleton])
